import Mathlib

/-!
# ServerPilot — verification of the frontend telemetry client and the
  server-side liveness hysteresis

Shallow embedding of:
* `useWebSocket` (frontend/src/hooks/useWebSocket.js): the reconnecting
  WebSocket hook with exponential backoff;
* `ServerCard` (frontend/src/components/ServerCard.jsx): the offline-grace
  display debounce;
* `ServerDetailPage` (frontend/src/pages/ServerDetailPage.jsx): the rolling
  metric-history buffer;
* the panel's per-agent liveness state machine (modelled from the spec; the
  panel backend sources are not in the repository snapshot).
-/

namespace ServerPilot

/-! ## useWebSocket: the reconnecting client -/

/-- A parsed broadcast frame. The hook stores whatever `JSON.parse` returned;
none of the verified properties inspect its contents, so we keep the raw
text of the frame. -/
structure Frame where
  raw : String
deriving DecidableEq, Repr

/-- The state of one `useWebSocket` hook instance:
`status` and `data` are the two `useState` cells, `retryCount` is
`retryCountRef.current`, `wsOpen` records whether `wsRef.current` holds an
open socket, `pendingDelay` is the delay of the timeout stored in
`reconnectTimeoutRef` (if one is scheduled), and `mounted` is
`isMountedRef.current`. -/
structure WSState where
  status : String
  retryCount : Nat
  data : Option Frame
  wsOpen : Bool
  pendingDelay : Option Nat
  mounted : Bool
deriving DecidableEq, Repr

/-- The state of the hook right after the mount effect sets
`isMountedRef.current = true` and before `connect()` runs:
`useState(null)`, `useState('disconnected')`, `retryCountRef = 0`. -/
def initWS : WSState :=
  { status := "disconnected", retryCount := 0, data := none,
    wsOpen := false, pendingDelay := none, mounted := true }

/-- `Math.min(1000 * Math.pow(2, retryCountRef.current), 30000)` from
`ws.onclose`. -/
def reconnectDelay (retryCount : Nat) : Nat :=
  min (1000 * 2 ^ retryCount) 30000

/-- `connect()`: bail out if unmounted; with no stored token set the status
to `'disconnected'` and return; otherwise set `'connecting'` and open a
socket. -/
def connect (s : WSState) (hasToken : Bool) : WSState :=
  if s.mounted = false then s
  else if hasToken = false then { s with status := "disconnected" }
  else { s with status := "connecting", wsOpen := true }

/-- `ws.onopen`: bail out if unmounted; set `'connected'` and reset the
retry counter. -/
def onopen (s : WSState) : WSState :=
  if s.mounted = false then s
  else { s with status := "connected", retryCount := 0 }

/-- `ws.onmessage`: bail out if unmounted; `JSON.parse` the payload — on
success store the parsed frame, on failure log and change nothing.
`parsed` is the outcome of `JSON.parse(event.data)`. -/
def onmessage (s : WSState) (parsed : Option Frame) : WSState :=
  if s.mounted = false then s
  else
    match parsed with
    | some f => { s with data := some f }
    | none => s

/-- `ws.onclose`: bail out if unmounted; set `'disconnected'`, drop the
socket, schedule `connect` after `reconnectDelay retryCount`, and increment
the retry counter. -/
def onclose (s : WSState) : WSState :=
  if s.mounted = false then s
  else
    { s with status := "disconnected", wsOpen := false,
             pendingDelay := some (reconnectDelay s.retryCount),
             retryCount := s.retryCount + 1 }

/-- The scheduled reconnect timeout fires: the timer is consumed and
`connect` runs. If no timeout is pending nothing can fire. -/
def timerFire (s : WSState) (hasToken : Bool) : WSState :=
  match s.pendingDelay with
  | none => s
  | some _ => connect { s with pendingDelay := none } hasToken

/-- The effect cleanup on unmount: `isMountedRef.current = false`,
`clearTimeout`, close and drop the socket. -/
def cleanup (s : WSState) : WSState :=
  { s with mounted := false, pendingDelay := none, wsOpen := false }

/-- `disconnect()`: the cleanup steps plus `setStatus('disconnected')`. -/
def disconnect (s : WSState) : WSState :=
  { cleanup s with status := "disconnected" }

/-- Events a hook instance reacts to. -/
inductive WSEvent where
  | connectEv (hasToken : Bool)
  | openEv
  | messageEv (parsed : Option Frame)
  | closeEv
  | fireEv (hasToken : Bool)
  | disconnectEv
deriving DecidableEq, Repr

/-- One transition of the hook. -/
def wsStep (s : WSState) : WSEvent → WSState
  | .connectEv t => connect s t
  | .openEv => onopen s
  | .messageEv p => onmessage s p
  | .closeEv => onclose s
  | .fireEv t => timerFire s t
  | .disconnectEv => disconnect s

/-- Run the hook over a sequence of events from the post-mount state. -/
def wsRun (evs : List WSEvent) : WSState :=
  evs.foldl wsStep initWS

/-! ## ServerCard: the 12-second offline display debounce -/

/-- `const OFFLINE_GRACE_MS = 12_000` (ServerCard.jsx). -/
def OFFLINE_GRACE_MS : Nat := 12000

/-- The debounce state of one `ServerCard`:
`isOnline` is the displayed `useState` cell, `timer` is the absolute fire
time of the timeout held in `offlineTimerRef` (if pending), and `lastRaw`
is the previous value of `rawOnline`, against which React compares the
`useEffect` dependency `[rawOnline]`. -/
structure CardState where
  isOnline : Bool
  timer : Option Nat
  lastRaw : Bool
deriving DecidableEq, Repr

/-- The body of the `useEffect` on `[rawOnline]`: a `true` clears any
pending offline timer and shows online at once; a `false` starts the
grace-period timer, but only when none is already pending. `now` is the
current time in milliseconds. -/
def cardEffect (s : CardState) (raw : Bool) (now : Nat) : CardState :=
  if raw then { s with isOnline := true, timer := none }
  else
    match s.timer with
    | some _ => s
    | none => { s with timer := some (now + OFFLINE_GRACE_MS) }

/-- The pending grace timer fires: display offline, drop the timer. -/
def cardTimerFire (s : CardState) : CardState :=
  { s with isOnline := false, timer := none }

/-- Let time pass until `now`: a pending timer whose deadline has been
reached fires (there is at most one). -/
def advanceTo (s : CardState) (now : Nat) : CardState :=
  match s.timer with
  | some d => if d ≤ now then cardTimerFire s else s
  | none => s

/-- The displayed online flag at time `now`, accounting for a timer that
fired at or before `now`. -/
def displayedAt (s : CardState) (now : Nat) : Bool :=
  (advanceTo s now).isOnline

/-- Mounting a card at time `now` with raw flag `raw`:
`useState(rawOnline)` initialises the displayed state to the raw value,
then the effect runs once after the first render. -/
def mountCard (raw : Bool) (now : Nat) : CardState :=
  cardEffect { isOnline := raw, timer := none, lastRaw := raw } raw now

/-- A raw update arriving at time `now`: any timer due by then has already
fired; the effect re-runs only when the raw value changed (the effect's
dependency array is `[rawOnline]`). -/
def cardStep (s : CardState) (raw : Bool) (now : Nat) : CardState :=
  let s1 := advanceTo s now
  if raw = s1.lastRaw then s1
  else cardEffect { s1 with lastRaw := raw } raw now

/-- The cleanup effect on unmount: `clearTimeout(offlineTimerRef.current)`. -/
def cardUnmount (s : CardState) : CardState :=
  { s with timer := none }

/-! ## ServerDetailPage: the rolling metric history -/

/-- `const MAX_HISTORY = 60` (ServerDetailPage.jsx). -/
def MAX_HISTORY : Nat := 60

/-- JavaScript `arr.slice(-n)` for `0 < n`: the last `n` elements (all of
them when the array is shorter). -/
def sliceLast {α : Type} (l : List α) (n : Nat) : List α :=
  l.drop (l.length - n)

/-- The `setHistory` updater: `[...prev, point].slice(-MAX_HISTORY)`. -/
def pushHistory {α : Type} (prev : List α) (point : α) : List α :=
  sliceLast (prev ++ [point]) MAX_HISTORY

/-! ## Panel liveness hysteresis (modelled from the spec) -/

/-- `OFFLINE_THRESHOLD` of the panel's poller.
Modelled from the spec: the backend sources are absent from the snapshot;
the spec fixes the threshold at 3 consecutive failures. -/
def OFFLINE_THRESHOLD : Nat := 3

/-- Modelled from the spec: the per-agent `LivenessState` record
`{consecutive_failures, is_online}` mutated only by that agent's poller
(the backend sources are absent from the snapshot). -/
structure LivenessState where
  consecutive_failures : Nat
  is_online : Bool
deriving DecidableEq, Repr

/-- Modelled from the spec: on a successful poll (HTTP 200, parseable
body), set `consecutive_failures = 0` and `is_online = true`
(the backend sources are absent from the snapshot). -/
def pollSuccess (_s : LivenessState) : LivenessState :=
  { consecutive_failures := 0, is_online := true }

/-- Modelled from the spec: on a failed poll, increment
`consecutive_failures`; only when the count has reached
`OFFLINE_THRESHOLD` does `is_online` flip to false, otherwise the prior
value is retained (the backend sources are absent from the snapshot). -/
def pollFailure (s : LivenessState) : LivenessState :=
  let f := s.consecutive_failures + 1
  { consecutive_failures := f,
    is_online := if OFFLINE_THRESHOLD ≤ f then false else s.is_online }

end ServerPilot

namespace ServerPilot

/-! ## Helper lemmas -/

theorem reconnectDelay_cap (n : Nat) (h : 5 ≤ n) : reconnectDelay n = 30000 := by
  have h2 : (32 : Nat) ≤ 2 ^ n := by
    calc (32 : Nat) = 2 ^ 5 := by decide
    _ ≤ 2 ^ n := Nat.pow_le_pow_right (by decide) h
  unfold reconnectDelay
  have h3 : (30000 : Nat) ≤ 1000 * 2 ^ n := by
    calc (30000 : Nat) ≤ 1000 * 32 := by decide
    _ ≤ 1000 * 2 ^ n := Nat.mul_le_mul_left 1000 h2
  omega

theorem onclose_iterate (s : WSState) (h : s.mounted = true) (n : Nat) :
    (onclose^[n] s).mounted = true ∧
    (onclose^[n] s).retryCount = s.retryCount + n := by
  induction n with
  | zero => simpa using h
  | succ k ih =>
    obtain ⟨hm, hr⟩ := ih
    rw [Function.iterate_succ_apply']
    constructor
    · simp [onclose, hm]
    · simp [onclose, hm, hr]
      omega

end ServerPilot

namespace ServerPilot

/-- **C1.** The delay scheduled after the n-th consecutive unexpected close
since the last successful open (counting from n = 0) is
`min(1000 * 2^n, 30000)` ms, so successive delays run
1000, 2000, 4000, 8000, 16000, 30000, 30000, …; a successful open resets
the retry counter to 0, so the first delay after open is again 1000 ms. -/
theorem C1_reconnect_backoff (s : WSState) (h : s.mounted = true) (n : Nat) :
    (onopen s).retryCount = 0 ∧
    (onclose^[n + 1] (onopen s)).pendingDelay = some (reconnectDelay n) ∧
    reconnectDelay n = min (1000 * 2 ^ n) 30000 ∧
    reconnectDelay 0 = 1000 ∧ reconnectDelay 1 = 2000 ∧
    reconnectDelay 2 = 4000 ∧ reconnectDelay 3 = 8000 ∧
    reconnectDelay 4 = 16000 ∧ reconnectDelay 5 = 30000 ∧
    (∀ m, 5 ≤ m → reconnectDelay m = 30000) := by
  have hopen : (onopen s).mounted = true ∧ (onopen s).retryCount = 0 := by
    constructor <;> simp [onopen, h]
  obtain ⟨hm0, hr0⟩ := hopen
  obtain ⟨hm, hr⟩ := onclose_iterate (onopen s) hm0 n
  refine ⟨hr0, ?_, rfl, by decide, by decide, by decide, by decide, by decide,
    by decide, fun m hm5 => reconnectDelay_cap m hm5⟩
  rw [Function.iterate_succ_apply']
  simp [onclose, hm, hr, hr0]

/-- Witness for C1: from the mounted initial state, the fourth consecutive
close after a successful open schedules an 8000 ms reconnect delay. -/
theorem C1_reconnect_backoff_witness :
    initWS.mounted = true ∧
    (onclose^[4] (onopen initWS)).pendingDelay = some (reconnectDelay 3) :=
  ⟨rfl, (C1_reconnect_backoff initWS rfl 3).2.1⟩

/-- **C5.** A broadcast message whose payload fails to parse as JSON is
discarded with no state change at all: the stored data, the status, the
socket, the retry counter and any pending timer are untouched. -/
theorem C5_malformed_frame_discarded (s : WSState) : onmessage s none = s := by
  unfold onmessage
  split
  · rfl
  · rfl

/-- Witness for C5: discarding a malformed frame in the initial state. -/
theorem C5_malformed_frame_discarded_witness :
    onmessage initWS none = initWS :=
  C5_malformed_frame_discarded initWS

/-- **C9.** When no auth token is stored, `connect` sets the status to
`'disconnected'`, opens no socket and schedules no retry timer; from a
state with no socket and no pending timer the subscription therefore stays
down — in particular no timer can fire — until `connect` is invoked again
externally. -/
theorem C9_missing_token (s : WSState) (hm : s.mounted = true)
    (hws : s.wsOpen = false) (hp : s.pendingDelay = none) :
    (connect s false).status = "disconnected" ∧
    (connect s false).wsOpen = false ∧
    (connect s false).pendingDelay = none ∧
    (∀ t, timerFire (connect s false) t = connect s false) := by
  refine ⟨?_, ?_, ?_, ?_⟩
  · simp [connect, hm]
  · simp [connect, hm, hws]
  · simp [connect, hm, hp]
  · intro t
    have h1 : (connect s false).pendingDelay = none := by simp [connect, hm, hp]
    unfold timerFire
    rw [h1]

/-- Witness for C9: running the token-less `connect` from the initial
state. -/
theorem C9_missing_token_witness :
    (connect initWS false).status = "disconnected" ∧
    (connect initWS false).wsOpen = false ∧
    (connect initWS false).pendingDelay = none ∧
    (∀ t, timerFire (connect initWS false) t = connect initWS false) :=
  C9_missing_token initWS rfl rfl rfl

theorem pollFailure_iterate (s : LivenessState) (n : Nat) :
    pollFailure^[n] (pollSuccess s) =
      ⟨n, decide (n < OFFLINE_THRESHOLD)⟩ := by
  induction n with
  | zero => rfl
  | succ k ih =>
    rw [Function.iterate_succ_apply', ih]
    unfold pollFailure OFFLINE_THRESHOLD
    by_cases hk : k + 1 < 3
    · have h1 : ¬ (3 ≤ k + 1) := by omega
      have h2 : k < 3 := by omega
      simp [h1, h2, hk]
    · have h1 : (3 : Nat) ≤ k + 1 := by omega
      simp [h1, hk]

/-- **C4.** (Modelled from the spec: the panel backend is absent from the
snapshot.) The per-agent liveness machine flips `is_online` to true on the
very next successful poll regardless of the prior failure count — in
particular from any offline state — resetting `consecutive_failures` to 0;
a failure increments the count, retains the prior `is_online` while the
count stays below `OFFLINE_THRESHOLD = 3`, and flips it to false once the
count reaches the threshold: after a success, `n` consecutive failures
leave the agent online exactly when `n < 3`. -/
theorem C4_liveness_hysteresis (s : LivenessState) :
    (pollSuccess s).is_online = true ∧
    (pollSuccess s).consecutive_failures = 0 ∧
    (pollFailure s).consecutive_failures = s.consecutive_failures + 1 ∧
    (s.consecutive_failures + 1 < OFFLINE_THRESHOLD →
      (pollFailure s).is_online = s.is_online) ∧
    (OFFLINE_THRESHOLD ≤ s.consecutive_failures + 1 →
      (pollFailure s).is_online = false) ∧
    (∀ n, (pollFailure^[n] (pollSuccess s)).is_online
            = decide (n < OFFLINE_THRESHOLD)) := by
  refine ⟨rfl, rfl, rfl, ?_, ?_, ?_⟩
  · intro hcnt
    unfold pollFailure
    have h1 : ¬ (OFFLINE_THRESHOLD ≤ s.consecutive_failures + 1) := by omega
    simp [h1]
  · intro hu
    unfold pollFailure
    simp [hu]
  · intro n
    rw [pollFailure_iterate s n]

/-- Witness for C4: an offline agent with five recorded consecutive
failures goes back online, with the count reset to 0, on a single
successful poll; three failures after that success take it offline
again. -/
theorem C4_liveness_hysteresis_witness :
    (pollSuccess (⟨5, false⟩ : LivenessState)).is_online = true ∧
    (pollSuccess (⟨5, false⟩ : LivenessState)).consecutive_failures = 0 ∧
    (pollFailure^[3] (pollSuccess (⟨5, false⟩ : LivenessState))).is_online
      = decide (3 < OFFLINE_THRESHOLD) := by
  have h := C4_liveness_hysteresis ⟨5, false⟩
  exact ⟨h.1, h.2.1, h.2.2.2.2.2 3⟩

theorem sliceLast_length {α : Type} (l : List α) (n : Nat) :
    (sliceLast l n).length = min l.length n := by
  unfold sliceLast
  rw [List.length_drop]
  omega

/-- **C6.** The metric-history buffer never exceeds `MAX_HISTORY = 60`
points: each update appends exactly one point at the end, and once the
buffer holds 60 points the single oldest point is dropped while the order
of the remaining points is preserved. -/
theorem C6_history_bounded {α : Type} (prev : List α) (p : α)
    (h : prev.length ≤ MAX_HISTORY) :
    (pushHistory prev p).length ≤ MAX_HISTORY ∧
    (prev.length < MAX_HISTORY → pushHistory prev p = prev ++ [p]) ∧
    (prev.length = MAX_HISTORY → pushHistory prev p = prev.tail ++ [p]) := by
  refine ⟨?_, ?_, ?_⟩
  · unfold pushHistory
    rw [sliceLast_length]
    simp
  · intro hlt
    unfold pushHistory sliceLast
    have h0 : (prev ++ [p]).length - MAX_HISTORY = 0 := by
      rw [List.length_append]
      simp only [List.length_singleton]
      omega
    rw [h0, List.drop_zero]
  · intro heq
    unfold pushHistory sliceLast
    have h1 : (prev ++ [p]).length - MAX_HISTORY = 1 := by
      rw [List.length_append]
      simp only [List.length_singleton]
      omega
    rw [h1, List.drop_append_eq_append_drop]
    have hM : MAX_HISTORY = 60 := rfl
    have h2 : 1 - prev.length = 0 := by omega
    rw [h2, List.drop_zero, List.drop_one]

/-- Witness for C6: pushing onto a full 60-point buffer drops the oldest
point, keeps the bound, and appends the new point at the end. -/
theorem C6_history_bounded_witness :
    (List.replicate 60 (0 : Nat)).length ≤ MAX_HISTORY ∧
    (pushHistory (List.replicate 60 (0 : Nat)) 7).length ≤ MAX_HISTORY ∧
    ((List.replicate 60 (0 : Nat)).length = MAX_HISTORY →
      pushHistory (List.replicate 60 (0 : Nat)) 7
        = (List.replicate 60 (0 : Nat)).tail ++ [7]) := by
  have h := C6_history_bounded (List.replicate 60 (0 : Nat)) 7 (by decide)
  exact ⟨by decide, h.1, h.2.2⟩

theorem cardStep_false_of_online (s : CardState) (h2 : s.timer = none)
    (h3 : s.lastRaw = true) (t1 : Nat) :
    cardStep s false t1 =
      { isOnline := s.isOnline, timer := some (t1 + OFFLINE_GRACE_MS),
        lastRaw := false } := by
  unfold cardStep advanceTo cardEffect
  rw [h2]
  simp [h2, h3]

theorem cardStep_true_clears (s : CardState) (h3 : s.lastRaw = false)
    (t2 : Nat) :
    cardStep s true t2 =
      { isOnline := true, timer := none, lastRaw := true } := by
  unfold cardStep advanceTo cardEffect cardTimerFire
  cases hd : s.timer with
  | none => simp [h3]
  | some d =>
    by_cases hle : d ≤ t2 <;> simp [h3, hle]

/-- **C2.** If the raw online flag goes true → false and a raw true arrives
strictly less than `OFFLINE_GRACE_MS = 12000` ms after the false, the card
never displays offline in between, and the arriving true immediately
restores the online display and cancels the pending offline timer; in
general, any raw true arriving after a false shows online at once with no
timer left pending. -/
theorem C2_grace_no_flicker (s : CardState) (h1 : s.isOnline = true)
    (h2 : s.timer = none) (h3 : s.lastRaw = true) (t1 t t2 : Nat)
    (ht : t1 ≤ t) (htl : t < t1 + OFFLINE_GRACE_MS)
    (ht2 : t2 < t1 + OFFLINE_GRACE_MS) :
    displayedAt (cardStep s false t1) t = true ∧
    cardStep (cardStep s false t1) true t2 =
      { isOnline := true, timer := none, lastRaw := true } ∧
    (∀ c : CardState, ∀ u : Nat, c.lastRaw = false →
      (cardStep c true u).isOnline = true ∧ (cardStep c true u).timer = none) := by
  rw [cardStep_false_of_online s h2 h3 t1]
  refine ⟨?_, ?_, ?_⟩
  · unfold displayedAt advanceTo
    have hnot : ¬ (t1 + OFFLINE_GRACE_MS ≤ t) := by omega
    simp [hnot, h1]
  · exact cardStep_true_clears _ rfl t2
  · intro c u hc
    rw [cardStep_true_clears c hc u]
    exact ⟨rfl, rfl⟩

/-- Witness for C2: a steady-online card sees false at t=0 and true at
t=11999; it displays online at t=6000 and ends online with no pending
timer. -/
theorem C2_grace_no_flicker_witness :
    displayedAt (cardStep ⟨true, none, true⟩ false 0) 6000 = true ∧
    cardStep (cardStep ⟨true, none, true⟩ false 0) true 11999 =
      { isOnline := true, timer := none, lastRaw := true } := by
  have h := C2_grace_no_flicker ⟨true, none, true⟩ rfl rfl rfl 0 6000 11999
    (by decide) (by decide) (by decide)
  exact ⟨h.1, h.2.1⟩

/-- **C3.** From a steady online display, a raw false starts a single
offline timer with absolute deadline exactly `t1 + OFFLINE_GRACE_MS`;
with no subsequent true the display is offline at every time from the
deadline on, repeated raw false updates while the timer is pending leave
the state (hence the timer) unchanged, and once the timer has fired it is
consumed, so later false updates cause no further transition. -/
theorem C3_offline_once_after_grace (s : CardState) (h1 : s.isOnline = true)
    (h2 : s.timer = none) (h3 : s.lastRaw = true) (t1 t t' : Nat)
    (ht : t1 + OFFLINE_GRACE_MS ≤ t) (ht' : t' < t1 + OFFLINE_GRACE_MS) :
    (cardStep s false t1).timer = some (t1 + OFFLINE_GRACE_MS) ∧
    displayedAt (cardStep s false t1) t = false ∧
    cardStep (cardStep s false t1) false t' = cardStep s false t1 ∧
    advanceTo (cardStep s false t1) t =
      { isOnline := false, timer := none, lastRaw := false } ∧
    (∀ u, cardStep (advanceTo (cardStep s false t1) t) false u =
      advanceTo (cardStep s false t1) t) := by
  have hstep := cardStep_false_of_online s h2 h3 t1
  have hfire : advanceTo
      { isOnline := s.isOnline, timer := some (t1 + OFFLINE_GRACE_MS),
        lastRaw := false } t =
      { isOnline := false, timer := none, lastRaw := false } := by
    unfold advanceTo cardTimerFire
    simp [ht]
  rw [hstep, hfire]
  refine ⟨rfl, ?_, ?_, rfl, ?_⟩
  · unfold displayedAt
    rw [hfire]
  · unfold cardStep advanceTo
    have hnot : ¬ (t1 + OFFLINE_GRACE_MS ≤ t') := by omega
    simp [hnot]
  · intro u
    unfold cardStep advanceTo
    simp

/-- Witness for C3: false at t=0 with no later true; a redundant false at
t=5000 changes nothing and the display is offline at t=12000. -/
theorem C3_offline_once_after_grace_witness :
    (cardStep ⟨true, none, true⟩ false 0).timer = some OFFLINE_GRACE_MS ∧
    displayedAt (cardStep ⟨true, none, true⟩ false 0) 12000 = false ∧
    cardStep (cardStep ⟨true, none, true⟩ false 0) false 5000 =
      cardStep ⟨true, none, true⟩ false 0 := by
  have h := C3_offline_once_after_grace ⟨true, none, true⟩ rfl rfl rfl 0 12000
    5000 (by decide) (by decide)
  exact ⟨by simpa using h.1, h.2.1, h.2.2.1⟩

/-- **C10.** The offline grace applies only to transitions observed after
mount: a card mounted while the raw flag is false initialises its
displayed state to offline and shows OFFLINE on the very first render,
with no grace delay; in general the first render shows exactly the raw
flag seen at mount. -/
theorem C10_mount_shows_raw (r : Bool) (t : Nat) :
    (mountCard false t).isOnline = false ∧
    displayedAt (mountCard false t) t = false ∧
    (mountCard r t).isOnline = r := by
  have hfalse : mountCard false t =
      { isOnline := false, timer := some (t + OFFLINE_GRACE_MS),
        lastRaw := false } := by
    unfold mountCard cardEffect
    simp
  refine ⟨?_, ?_, ?_⟩
  · rw [hfalse]
  · rw [hfalse]
    unfold displayedAt advanceTo
    have hnot : ¬ (t + OFFLINE_GRACE_MS ≤ t) := by
      unfold OFFLINE_GRACE_MS
      omega
    simp [hnot]
  · cases r
    · rw [hfalse]
    · unfold mountCard cardEffect
      simp

/-- Witness for C10: mounting with a false raw flag at t=0 renders OFFLINE
immediately. -/
theorem C10_mount_shows_raw_witness :
    (mountCard false 0).isOnline = false ∧
    displayedAt (mountCard false 0) 0 = false :=
  ⟨(C10_mount_shows_raw false 0).1, (C10_mount_shows_raw false 0).2.1⟩

/-- A hook instance that has been torn down: unmounted, no pending
reconnect timeout, socket closed. -/
def torndown (s : WSState) : Prop :=
  s.mounted = false ∧ s.pendingDelay = none ∧ s.wsOpen = false

theorem connect_unmounted (s : WSState) (hm : s.mounted = false) (t : Bool) :
    connect s t = s := by
  unfold connect
  simp [hm]

theorem onopen_unmounted (s : WSState) (hm : s.mounted = false) :
    onopen s = s := by
  unfold onopen
  simp [hm]

theorem onmessage_unmounted (s : WSState) (hm : s.mounted = false)
    (p : Option Frame) : onmessage s p = s := by
  unfold onmessage
  simp [hm]

theorem onclose_unmounted (s : WSState) (hm : s.mounted = false) :
    onclose s = s := by
  unfold onclose
  simp [hm]

theorem timerFire_noTimer (s : WSState) (hp : s.pendingDelay = none)
    (t : Bool) : timerFire s t = s := by
  unfold timerFire
  rw [hp]

theorem torndown_step (s : WSState) (h : torndown s) (e : WSEvent) :
    torndown (wsStep s e) := by
  obtain ⟨hm, hp, hw⟩ := h
  cases e with
  | connectEv t =>
    show torndown (connect s t)
    rw [connect_unmounted s hm t]
    exact ⟨hm, hp, hw⟩
  | openEv =>
    show torndown (onopen s)
    rw [onopen_unmounted s hm]
    exact ⟨hm, hp, hw⟩
  | messageEv p =>
    show torndown (onmessage s p)
    rw [onmessage_unmounted s hm p]
    exact ⟨hm, hp, hw⟩
  | closeEv =>
    show torndown (onclose s)
    rw [onclose_unmounted s hm]
    exact ⟨hm, hp, hw⟩
  | fireEv t =>
    show torndown (timerFire s t)
    rw [timerFire_noTimer s hp t]
    exact ⟨hm, hp, hw⟩
  | disconnectEv =>
    show torndown (disconnect s)
    exact ⟨rfl, rfl, rfl⟩

theorem torndown_run (s : WSState) (h : torndown s) (evs : List WSEvent) :
    torndown (evs.foldl wsStep s) := by
  induction evs generalizing s with
  | nil => exact h
  | cons e tl ih => exact ih (wsStep s e) (torndown_step s h e)

theorem cleanup_torndown (s : WSState) : torndown (cleanup s) :=
  ⟨rfl, rfl, rfl⟩

theorem disconnect_torndown (s : WSState) : torndown (disconnect s) :=
  ⟨rfl, rfl, rfl⟩

/-- **C7.** After intentional teardown no pending timer ever fires: both
`disconnect()` and the unmount cleanup clear the scheduled reconnect
timeout and close the socket, and under any further sequence of events the
hook never opens a socket or schedules a reconnect again; a server card's
unmount cleanup clears its pending offline-grace timer, so the displayed
state never flips afterwards. -/
theorem C7_teardown_quiescent (s : WSState) (c : CardState)
    (evs : List WSEvent) (t : Nat) :
    (cleanup s).pendingDelay = none ∧ (cleanup s).wsOpen = false ∧
    (disconnect s).pendingDelay = none ∧ (disconnect s).wsOpen = false ∧
    (evs.foldl wsStep (cleanup s)).pendingDelay = none ∧
    (evs.foldl wsStep (cleanup s)).wsOpen = false ∧
    (evs.foldl wsStep (disconnect s)).pendingDelay = none ∧
    (evs.foldl wsStep (disconnect s)).wsOpen = false ∧
    (cardUnmount c).timer = none ∧
    displayedAt (cardUnmount c) t = c.isOnline := by
  have hc := torndown_run (cleanup s) (cleanup_torndown s) evs
  have hd := torndown_run (disconnect s) (disconnect_torndown s) evs
  refine ⟨rfl, rfl, rfl, rfl, hc.2.1, hc.2.2, hd.2.1, hd.2.2, rfl, ?_⟩
  unfold displayedAt advanceTo cardUnmount
  simp

/-- Witness for C7: tearing down the initial state and then replaying a
close, a timer fire and an open leaves no socket and no pending timeout;
an unmounted card keeps showing its last state. -/
theorem C7_teardown_quiescent_witness :
    (([WSEvent.closeEv, WSEvent.fireEv true,
       WSEvent.openEv] : List WSEvent).foldl wsStep
        (cleanup initWS)).pendingDelay = none ∧
    (([WSEvent.closeEv, WSEvent.fireEv true,
       WSEvent.openEv] : List WSEvent).foldl wsStep
        (cleanup initWS)).wsOpen = false ∧
    displayedAt (cardUnmount ⟨true, some 500, false⟩) 99999 = true := by
  have h := C7_teardown_quiescent initWS ⟨true, some 500, false⟩
    [WSEvent.closeEv, WSEvent.fireEv true, WSEvent.openEv] 99999
  exact ⟨h.2.2.2.2.1, h.2.2.2.2.2.1, h.2.2.2.2.2.2.2.2.2⟩

/-- The status/retry invariant of the hook: a connected status implies a
zero retry counter, and the status is one of the three documented
values. -/
def wsInv (s : WSState) : Prop :=
  (s.status = "connected" → s.retryCount = 0) ∧
  (s.status = "connecting" ∨ s.status = "connected" ∨
   s.status = "disconnected")

theorem connect_wsInv (s : WSState) (h : wsInv s) (t : Bool) :
    wsInv (connect s t) := by
  by_cases hm : s.mounted = false
  · rw [connect_unmounted s hm t]
    exact h
  · cases t with
    | false =>
      have hc : connect s false = { s with status := "disconnected" } := by
        unfold connect
        simp [hm]
      rw [hc]
      refine ⟨?_, Or.inr (Or.inr rfl)⟩
      intro hcon
      have h2 : ("disconnected" : String) = "connected" := hcon
      exact absurd h2 (by decide)
    | true =>
      have hc : connect s true =
          { s with status := "connecting", wsOpen := true } := by
        unfold connect
        simp [hm]
      rw [hc]
      refine ⟨?_, Or.inl rfl⟩
      intro hcon
      have h2 : ("connecting" : String) = "connected" := hcon
      exact absurd h2 (by decide)

theorem wsStep_inv (s : WSState) (h : wsInv s) (e : WSEvent) :
    wsInv (wsStep s e) := by
  cases e with
  | connectEv t => exact connect_wsInv s h t
  | openEv =>
    show wsInv (onopen s)
    by_cases hm : s.mounted = false
    · rw [onopen_unmounted s hm]
      exact h
    · have ho : onopen s = { s with status := "connected", retryCount := 0 } := by
        unfold onopen
        simp [hm]
      rw [ho]
      exact ⟨fun _ => rfl, Or.inr (Or.inl rfl)⟩
  | messageEv p =>
    show wsInv (onmessage s p)
    by_cases hm : s.mounted = false
    · rw [onmessage_unmounted s hm p]
      exact h
    · cases p with
      | none =>
        have hn : onmessage s none = s := by
          unfold onmessage
          simp [hm]
        rw [hn]
        exact h
      | some f =>
        have hmsg : onmessage s (some f) = { s with data := some f } := by
          unfold onmessage
          simp [hm]
        rw [hmsg]
        exact h
  | closeEv =>
    show wsInv (onclose s)
    by_cases hm : s.mounted = false
    · rw [onclose_unmounted s hm]
      exact h
    · have hcl : onclose s =
          { s with status := "disconnected", wsOpen := false,
                   pendingDelay := some (reconnectDelay s.retryCount),
                   retryCount := s.retryCount + 1 } := by
        unfold onclose
        simp [hm]
      rw [hcl]
      refine ⟨?_, Or.inr (Or.inr rfl)⟩
      intro hcon
      have h2 : ("disconnected" : String) = "connected" := hcon
      exact absurd h2 (by decide)
  | fireEv t =>
    show wsInv (timerFire s t)
    cases hp : s.pendingDelay with
    | none =>
      rw [timerFire_noTimer s hp t]
      exact h
    | some d =>
      unfold timerFire
      rw [hp]
      exact connect_wsInv { s with pendingDelay := none } h t
  | disconnectEv =>
    show wsInv (disconnect s)
    refine ⟨?_, Or.inr (Or.inr rfl)⟩
    intro hcon
    have h2 : ("disconnected" : String) = "connected" := hcon
    exact absurd h2 (by decide)

theorem wsRun_inv (evs : List WSEvent) : wsInv (wsRun evs) := by
  unfold wsRun
  have hinit : wsInv initWS := by
    refine ⟨?_, Or.inr (Or.inr rfl)⟩
    intro hcon
    have h2 : ("disconnected" : String) = "connected" := hcon
    exact absurd h2 (by decide)
  generalize initWS = s at hinit ⊢
  induction evs generalizing s with
  | nil => exact hinit
  | cons e tl ih => exact ih (wsStep s e) (wsStep_inv s hinit e)

/-- **C8.** Along every event sequence of the hook, whenever the status is
`'connected'` the retry counter is 0, and the status is always one of
`'connecting'`, `'connected'`, `'disconnected'`. -/
theorem C8_connected_retry_zero (evs : List WSEvent) :
    ((wsRun evs).status = "connected" → (wsRun evs).retryCount = 0) ∧
    ((wsRun evs).status = "connecting" ∨ (wsRun evs).status = "connected" ∨
     (wsRun evs).status = "disconnected") :=
  wsRun_inv evs

/-- Witness for C8: after connect, open, close, close, reconnect and open
again, the hook is connected with a zero retry counter. -/
theorem C8_connected_retry_zero_witness :
    ((wsRun [WSEvent.connectEv true, WSEvent.openEv, WSEvent.closeEv,
             WSEvent.closeEv, WSEvent.fireEv true,
             WSEvent.openEv]).status = "connected" →
      (wsRun [WSEvent.connectEv true, WSEvent.openEv, WSEvent.closeEv,
              WSEvent.closeEv, WSEvent.fireEv true,
              WSEvent.openEv]).retryCount = 0) ∧
    ((wsRun [WSEvent.connectEv true, WSEvent.openEv, WSEvent.closeEv,
             WSEvent.closeEv, WSEvent.fireEv true,
             WSEvent.openEv]).status = "connecting" ∨
     (wsRun [WSEvent.connectEv true, WSEvent.openEv, WSEvent.closeEv,
             WSEvent.closeEv, WSEvent.fireEv true,
             WSEvent.openEv]).status = "connected" ∨
     (wsRun [WSEvent.connectEv true, WSEvent.openEv, WSEvent.closeEv,
             WSEvent.closeEv, WSEvent.fireEv true,
             WSEvent.openEv]).status = "disconnected") :=
  C8_connected_retry_zero [WSEvent.connectEv true, WSEvent.openEv,
    WSEvent.closeEv, WSEvent.closeEv, WSEvent.fireEv true, WSEvent.openEv]

end ServerPilot
